import Mathlib

/-!
Verification development for the aiosxm package (a SiriusXM client, stream
resolver and HLS proxy).  Python strings are modelled as `String` where they
are only carried around opaquely (the client/auth layer) and as `List Char`
where the code inspects their characters (manifest scanning, playlist
rewriting, URL splitting).  HTTP transport is modelled as an environment of
successful responses; machine behaviour of Python (dict `.get`, negative
indexing, exception construction arity) is modelled explicitly.
-/

namespace Aiosxm

/-- Python exceptions that the modelled code can raise.  `typeError` stands
for Python's built-in `TypeError`; `notAvailableError` models the error kind
named by the specification (section 7) for a missing bitrate — no such
exception class exists anywhere in the package sources, it is included only
so that statements about it can be written down.  `fuelExhausted` is an
artefact of the fuel-indexed recursion and never occurs for sufficient
fuel. -/
inductive PyError where
  | typeError
  | requestError
  | authenticationError (msg : String)
  | notAvailableError
  | indexError
  | attributeError
  | fuelExhausted
deriving DecidableEq

/-- Python exception construction.  `AuthenticationError.__init__(self,
message, original_exception)` (client.py lines 282-285) declares two
required positional parameters besides `self`; calling the class with fewer
arguments raises `TypeError` instead of producing the intended exception.
`required` is the number of non-self parameters of `__init__`, `given` the
number of arguments supplied at the raise site. -/
def constructExc (required given : Nat) (e : PyError) : PyError :=
  if given = required then e else PyError.typeError

/-- Number of required non-self parameters of `AuthenticationError.__init__`
(client.py lines 282-285: `message` and `original_exception`). -/
def authErrorArity : Nat := 2

/-- Upstream endpoints contacted by the client, used to trace which HTTP
requests are actually sent (client.py: the url arguments of the
`self.request(...)` calls). -/
inductive ApiCall where
  | devices
  | anonymousSession
  | identityStatus
  | passwordAuth
  | authenticatedSession
  | playerConfig
  | generic
deriving DecidableEq

/-- The responses the upstream service returns for the authentication chain;
transport is modelled as succeeding with these values. -/
structure AuthEnv where
  deviceGrant : String
  anonToken : String
  hasPassword : Bool
  authGrant : String
  newToken : String
  newExpiresAt : Nat
deriving DecidableEq

/-- The mutable fields of `SxmClient` relevant to authentication
(client.py lines 38-49). -/
structure ClientState where
  username : String
  accessToken : Option String
  accessTokenExpiration : Option Nat
  deviceSession : Option String
  anonymousSession : Option String
  authenticationResponse : Option String
  authenticatedSession : Option (String × Nat)
deriving DecidableEq

/-- The state of a freshly constructed `SxmClient` (client.py lines 38-49):
no sessions, no access token, no expiration. -/
def initialClientState (u : String) : ClientState :=
  { username := u
    accessToken := none
    accessTokenExpiration := none
    deviceSession := none
    anonymousSession := none
    authenticationResponse := none
    authenticatedSession := none }

/-- The expiry test at the top of `SxmClient.request` (client.py line 89):
`if self._access_token_expiration and datetime.now(tz=UTC) >=
self._access_token_expiration`.  A held `datetime` is always truthy, so the
condition is: an expiration is held and the current time is at or past
it. -/
def tokenExpired (st : ClientState) (now : Nat) : Bool :=
  match st.accessTokenExpiration with
  | some e => decide (e ≤ now)
  | none => false

/-- The Authorization header `request` ends up sending (client.py lines
95-99): if an access token is held it overwrites any caller-supplied
Authorization with `Bearer <token>`; otherwise the caller-supplied
Authorization (if any) stands. -/
def bearerOf (st : ClientState) (callerAuth : Option String) : Option String :=
  match st.accessToken with
  | some t => some ("Bearer " ++ t)
  | none => callerAuth

/-- Sequencing for traced fallible computations: the first component
accumulates the upstream calls performed, the second is the result; an
exception aborts the rest of the computation but keeps the calls already
made. -/
def tbind {α β : Type} (x : List ApiCall × Except PyError α)
    (f : α → List ApiCall × Except PyError β) : List ApiCall × Except PyError β :=
  match x with
  | (tr, Except.error e) => (tr, Except.error e)
  | (tr, Except.ok a) => match f a with
    | (tr2, r) => (tr ++ tr2, r)

/-- `SxmClient._authenticate` (client.py lines 178-197), parametrised by the
`request` function its nested steps go through (they call `self.request`,
so each nested request re-enters the expiry check).  Each step stores the
response field the code stores, in source order:
create device session if absent (line 181-182), create anonymous session
from the held device grant (line 183), identity status lookup (line 184),
the `hasPassword` guard (lines 185-188) — whose raise site passes a single
argument to the two-argument `AuthenticationError` constructor —,
password authentication (line 189), authenticated session creation
(line 190), and finally storing the token and expiry (lines 191-193).
Alongside the resulting state, the number of `_authenticate` invocations
performed by the nested requests is returned. -/
def authenticateWith
    (req : ClientState → ApiCall → Option String →
      List ApiCall × Except PyError (ClientState × Nat × Option String))
    (env : AuthEnv) (st : ClientState) :
    List ApiCall × Except PyError (ClientState × Nat) :=
  tbind (if st.deviceSession.isNone then
          tbind (req st ApiCall.devices none) (fun x =>
            ([], Except.ok ({ x.1 with deviceSession := some env.deviceGrant }, x.2.1)))
        else ([], Except.ok (st, 0)))
  (fun a =>
    tbind (req a.1 ApiCall.anonymousSession
        (some ("Bearer " ++ a.1.deviceSession.getD ""))) (fun b =>
      let st2 := { b.1 with anonymousSession := some env.anonToken }
      tbind (req st2 ApiCall.identityStatus
          (some ("Bearer " ++ st2.anonymousSession.getD ""))) (fun c =>
        if env.hasPassword then
          tbind (req c.1 ApiCall.passwordAuth
              (some ("Bearer " ++ c.1.anonymousSession.getD ""))) (fun d =>
            let st4 := { d.1 with authenticationResponse := some env.authGrant }
            tbind (req st4 ApiCall.authenticatedSession
                (some ("Bearer " ++ st4.authenticationResponse.getD ""))) (fun e2 =>
              let st5 := { e2.1 with
                authenticatedSession := some (env.newToken, env.newExpiresAt)
                accessToken := some env.newToken
                accessTokenExpiration := some env.newExpiresAt }
              ([], Except.ok (st5, a.2 + b.2.1 + c.2.1 + d.2.1 + e2.2.1))))
        else
          ([], Except.error (constructExc authErrorArity 1
            (PyError.authenticationError
              ("User " ++ c.1.username ++ " does not have a password set.")))))))

/-- `SxmClient.request` (client.py lines 87-114), fuel-indexed because the
token-refresh path re-enters `request` through the nested calls of
`_authenticate`.  If the held expiration is due, both token fields are
cleared (lines 91-92) and the authentication chain is re-run (line 93)
before the request itself is sent; the count of chain runs triggered by
this request (its own plus any performed by nested requests) is returned
together with the final state and the Authorization header attached to the
outgoing request. -/
def requestM : Nat → AuthEnv → ClientState → Nat → ApiCall → Option String →
    List ApiCall × Except PyError (ClientState × Nat × Option String)
  | 0, _, _, _, _, _ => ([], Except.error PyError.fuelExhausted)
  | fuel + 1, env, st, now, call, ca =>
    if tokenExpired st now then
      match authenticateWith (fun s c a => requestM fuel env s now c a) env
          { st with accessToken := none, accessTokenExpiration := none } with
      | (tr, Except.error e) => (tr, Except.error e)
      | (tr, Except.ok (st2, r)) =>
          (tr ++ [call], Except.ok (st2, 1 + r, bearerOf st2 ca))
    else ([call], Except.ok (st, 0, bearerOf st ca))

/-- `SxmClient.connect` (client.py lines 66-70): create a device session,
run the authentication chain, load the web player config. -/
def connectM (fuel : Nat) (env : AuthEnv) (st : ClientState) (now : Nat) :
    List ApiCall × Except PyError ClientState :=
  tbind (requestM fuel env st now ApiCall.devices none) (fun x =>
    let st1 := { x.1 with deviceSession := some env.deviceGrant }
    tbind (authenticateWith (fun s c a => requestM fuel env s now c a) env st1) (fun y =>
      tbind (requestM fuel env y.1 now ApiCall.playerConfig none) (fun z =>
        ([], Except.ok z.1))))

/-- The upstream calls one run of the authentication chain performs,
given the device-session field held when it starts. -/
def authChainCalls (dev : Option String) : List ApiCall :=
  (if dev.isNone then [ApiCall.devices] else []) ++
  [ApiCall.anonymousSession, ApiCall.identityStatus,
   ApiCall.passwordAuth, ApiCall.authenticatedSession]

theorem requestM_no_expiry (fuel : Nat) (env : AuthEnv) (s : ClientState)
    (now : Nat) (call : ApiCall) (ca : Option String)
    (h : s.accessTokenExpiration = none) :
    requestM (fuel + 1) env s now call ca = ([call], Except.ok (s, 0, bearerOf s ca)) := by
  simp [requestM, tokenExpired, h]

/-- The client state after a successful run of the authentication chain
started from state `s`: the device session is kept if held and freshly
created otherwise (client.py lines 181-182), the remaining session fields
and the token/expiry hold the chain's responses (lines 183-193). -/
def authFinalState (env : AuthEnv) (s : ClientState) : ClientState :=
  { s with
    deviceSession := some (s.deviceSession.getD env.deviceGrant)
    anonymousSession := some env.anonToken
    authenticationResponse := some env.authGrant
    authenticatedSession := some (env.newToken, env.newExpiresAt)
    accessToken := some env.newToken
    accessTokenExpiration := some env.newExpiresAt }

/-- One run of the authentication chain, started on a state with no held
expiration and enough fuel for its nested requests, performs exactly the
chain's upstream calls, triggers no further chain run from its nested
requests, and ends with the fresh token and expiry stored. -/
theorem authenticateWith_ok (fuel : Nat) (env : AuthEnv) (s : ClientState) (now : Nat)
    (hs : s.accessTokenExpiration = none) (hpw : env.hasPassword = true) :
    authenticateWith (fun s2 c a => requestM (fuel + 1) env s2 now c a) env s
      = (authChainCalls s.deviceSession, Except.ok (authFinalState env s, 0)) := by
  cases hd : s.deviceSession with
  | none =>
    simp [authenticateWith, tbind, authChainCalls, authFinalState, hd, hpw,
      requestM, tokenExpired, hs, bearerOf]
  | some g =>
    simp [authenticateWith, tbind, authChainCalls, authFinalState, hd, hpw,
      requestM, tokenExpired, hs, bearerOf]

/-- Claim C1: for every request issued through the client at a time at or
after the held access token's expiration, exactly one authentication chain
re-run is performed before the request proceeds (the nested requests of the
chain trigger no further re-runs), and the newly obtained access token is
the one attached as the Bearer Authorization header of that request
(client.py lines 87-114 and 178-197). -/
theorem request_expired_token_single_reauth (fuel : Nat) (env : AuthEnv)
    (st : ClientState) (now e : Nat) (call : ApiCall) (ca : Option String)
    (hexp : st.accessTokenExpiration = some e) (hdue : e ≤ now)
    (hpw : env.hasPassword = true) :
    requestM (fuel + 2) env st now call ca
      = (authChainCalls st.deviceSession ++ [call],
         Except.ok
           (authFinalState env
              { st with accessToken := none, accessTokenExpiration := none },
            1, some ("Bearer " ++ env.newToken)))
    ∧ (authFinalState env
         { st with accessToken := none, accessTokenExpiration := none }).accessToken
        = some env.newToken := by
  have hT : tokenExpired st now = true := by
    simp [tokenExpired, hexp, hdue]
  have hA :=
    authenticateWith_ok fuel env
      { st with accessToken := none, accessTokenExpiration := none } now rfl hpw
  refine ⟨?_, rfl⟩
  show requestM (fuel + 1 + 1) env st now call ca = _
  conv_lhs => rw [requestM]
  rw [if_pos hT, hA]
  simp [bearerOf, authFinalState]

/-- Concrete instance of claim C1's theorem: a client holding a token that
expired at time 3 issues a request at time 5; the chain re-runs once and
the new token is attached. -/
theorem request_expired_token_single_reauth_witness :
    Aiosxm.requestM 2 ⟨"dg", "at", true, "ag", "tok", 100⟩
        { Aiosxm.initialClientState "u" with
          accessToken := some "old", accessTokenExpiration := some 3 }
        5 Aiosxm.ApiCall.generic none
      = (Aiosxm.authChainCalls
           ({ Aiosxm.initialClientState "u" with
              accessToken := some "old",
              accessTokenExpiration := some 3 } : Aiosxm.ClientState).deviceSession
           ++ [Aiosxm.ApiCall.generic],
         Except.ok
           (Aiosxm.authFinalState ⟨"dg", "at", true, "ag", "tok", 100⟩
              { { Aiosxm.initialClientState "u" with
                  accessToken := some "old", accessTokenExpiration := some 3 } with
                accessToken := none, accessTokenExpiration := none },
            1, some ("Bearer " ++ "tok")))
    ∧ (Aiosxm.authFinalState ⟨"dg", "at", true, "ag", "tok", 100⟩
         { { Aiosxm.initialClientState "u" with
             accessToken := some "old", accessTokenExpiration := some 3 } with
           accessToken := none, accessTokenExpiration := none }).accessToken
        = some "tok" :=
  request_expired_token_single_reauth 0 ⟨"dg", "at", true, "ag", "tok", 100⟩
    { initialClientState "u" with
      accessToken := some "old", accessTokenExpiration := some 3 }
    5 3 ApiCall.generic none rfl (by decide) rfl

/-- Claim C3 (code bug): when the identity-status lookup reports
`hasPassword = false`, `connect()` stops before the password-authentication
step, but the exception actually raised is Python's `TypeError`, not
`AuthenticationError`: the raise site (client.py line 188) passes a single
argument to the two-required-argument constructor of `AuthenticationError`
(client.py lines 282-285).  The trace records that only the device-session,
anonymous-session and identity-status requests were sent — password
authentication was never attempted. -/
theorem connect_no_password_raises_type_error (fuel : Nat) (env : AuthEnv)
    (u : String) (now : Nat) (hpw : env.hasPassword = false) :
    connectM (fuel + 1) env (initialClientState u) now
      = ([ApiCall.devices, ApiCall.anonymousSession, ApiCall.identityStatus],
         Except.error PyError.typeError)
    ∧ ApiCall.passwordAuth ∉ (connectM (fuel + 1) env (initialClientState u) now).1 := by
  have h : connectM (fuel + 1) env (initialClientState u) now
      = ([ApiCall.devices, ApiCall.anonymousSession, ApiCall.identityStatus],
         Except.error PyError.typeError) := by
    simp [connectM, authenticateWith, tbind, requestM, tokenExpired,
      initialClientState, bearerOf, hpw, constructExc, authErrorArity]
  exact ⟨h, by rw [h]; decide⟩

/-- Concrete instance of claim C3's theorem: a user whose identity status
reports no password set. -/
theorem connect_no_password_raises_type_error_witness :
    Aiosxm.connectM 1 ⟨"dg", "at", false, "ag", "tok", 100⟩
        (Aiosxm.initialClientState "alice") 0
      = ([Aiosxm.ApiCall.devices, Aiosxm.ApiCall.anonymousSession,
          Aiosxm.ApiCall.identityStatus],
         Except.error Aiosxm.PyError.typeError)
    ∧ Aiosxm.ApiCall.passwordAuth
        ∉ (Aiosxm.connectM 1 ⟨"dg", "at", false, "ag", "tok", 100⟩
            (Aiosxm.initialClientState "alice") 0).1 :=
  connect_no_password_raises_type_error 0 ⟨"dg", "at", false, "ag", "tok", 100⟩
    "alice" 0 rfl

/-- Counterexample to claim C8: a client holding no access token at all
(token and expiration both absent) issues a request; contrary to the claim,
no authentication chain re-run happens — the request is sent upstream
directly, with zero chain runs and no Authorization header.  (This absence
of a re-run for token-less states is exactly what keeps the chain's own
nested requests from recursing, see claim C10.) -/
theorem request_no_token_counterexample :
    ¬ ∃ (tr : List ApiCall) (st2 : ClientState) (b : Option String),
        requestM 5 ⟨"dg", "at", true, "ag", "tok", 100⟩
            (initialClientState "u") 7 ApiCall.generic none
          = (tr, Except.ok (st2, 1, b)) := by
  intro hc
  obtain ⟨tr, st2, b, h⟩ := hc
  have heval : requestM 5 ⟨"dg", "at", true, "ag", "tok", 100⟩
      (initialClientState "u") 7 ApiCall.generic none
      = ([ApiCall.generic], Except.ok (initialClientState "u", 0, none)) := rfl
  rw [heval] at h
  simp [Prod.ext_iff, initialClientState] at h

/-- Claim C8 as amended: a request issued while the client holds no access
token (and hence no expiration — the invariant of the token state) performs
no re-authentication at all: the token state is left untouched, zero
authentication chain runs happen, and the request is sent upstream with the
caller-supplied Authorization header (none for a plain API call).
Re-authentication is triggered only by a held, due expiration
(client.py line 89). -/
theorem request_no_token_no_reauth (fuel : Nat) (env : AuthEnv)
    (st : ClientState) (now : Nat) (call : ApiCall) (ca : Option String)
    (hexp : st.accessTokenExpiration = none) (htok : st.accessToken = none) :
    requestM (fuel + 1) env st now call ca = ([call], Except.ok (st, 0, ca)) := by
  simp [requestM, tokenExpired, hexp, bearerOf, htok]

/-- Concrete instance of amended claim C8's theorem: a fresh client issues
a request; no chain run happens and no Authorization header is attached. -/
theorem request_no_token_no_reauth_witness :
    Aiosxm.requestM 1 ⟨"dg", "at", true, "ag", "tok", 100⟩
        (Aiosxm.initialClientState "u") 7 Aiosxm.ApiCall.generic none
      = ([Aiosxm.ApiCall.generic],
         Except.ok (Aiosxm.initialClientState "u", 0, none)) :=
  request_no_token_no_reauth 0 ⟨"dg", "at", true, "ag", "tok", 100⟩
    (initialClientState "u") 7 ApiCall.generic none rfl rfl

/-- Helper for claim C10: a run of the authentication chain whose starting
state holds no expiration performs zero nested chain runs — every nested
request of the chain sees no held expiration (the token fields are only
written after the last nested request) and skips the expiry check. -/
theorem authenticateWith_no_nested_runs (fuel : Nat) (env : AuthEnv)
    (s : ClientState) (now : Nat) (tr : List ApiCall) (st2 : ClientState) (r : Nat)
    (hs : s.accessTokenExpiration = none)
    (h : authenticateWith (fun s2 c a => requestM fuel env s2 now c a) env s
          = (tr, Except.ok (st2, r))) : r = 0 := by
  cases fuel with
  | zero =>
    cases hd : s.deviceSession <;>
      simp [authenticateWith, tbind, requestM, hd] at h
  | succ fuel =>
    cases hd : s.deviceSession with
    | none =>
      by_cases hp : env.hasPassword <;>
        simp [authenticateWith, tbind, requestM, tokenExpired, hs, hd, hp,
          bearerOf, constructExc, authErrorArity] at h <;>
        omega
    | some g =>
      by_cases hp : env.hasPassword <;>
        simp [authenticateWith, tbind, requestM, tokenExpired, hs, hd, hp,
          bearerOf, constructExc, authErrorArity] at h <;>
        omega

/-- Claim C10: re-authentication triggered inside `request` cannot recurse:
`request` clears both token fields before invoking the authentication
chain (client.py lines 91-93), so every nested request issued by the chain
sees no held expiration and performs no further re-authentication; the
number of chain runs for any single request is at most one. -/
theorem request_reauth_depth_at_most_one (fuel : Nat) (env : AuthEnv)
    (st : ClientState) (now : Nat) (call : ApiCall) (ca : Option String)
    (tr : List ApiCall) (st2 : ClientState) (r : Nat) (b : Option String)
    (h : requestM fuel env st now call ca = (tr, Except.ok (st2, r, b))) :
    r ≤ 1 := by
  cases fuel with
  | zero => simp [requestM] at h
  | succ fuel =>
    rw [requestM] at h
    by_cases hT : tokenExpired st now = true
    · rw [if_pos hT] at h
      rcases hA : authenticateWith (fun s c a => requestM fuel env s now c a) env
          { st with accessToken := none, accessTokenExpiration := none } with
        ⟨tr0, res0⟩
      rw [hA] at h
      cases res0 with
      | error e => simp at h
      | ok p =>
        rcases p with ⟨st0, r0⟩
        have hr0 : r0 = 0 :=
          authenticateWith_no_nested_runs fuel env
            { st with accessToken := none, accessTokenExpiration := none }
            now tr0 st0 r0 rfl hA
        simp [hr0] at h
        omega
    · rw [if_neg hT] at h
      simp [Prod.ext_iff] at h
      omega

/-- Concrete instance of claim C10's theorem: a fresh client's request
performs zero chain runs, which is at most one. -/
theorem request_reauth_depth_at_most_one_witness :
    (0 : Nat) ≤ 1 :=
  request_reauth_depth_at_most_one 1 ⟨"dg", "at", true, "ag", "tok", 100⟩
    (Aiosxm.initialClientState "u") 0 Aiosxm.ApiCall.generic none
    [Aiosxm.ApiCall.generic] (Aiosxm.initialClientState "u") 0 none rfl

/-!
The stream layer (stream.py).  Python strings are `List Char` here because
the code inspects characters (regex scans, splits).  The transport is a
function from the requested URL to the returned document.
-/

/-- A Python dict whose values may be `None`: an association list from key
to nullable value.  Models `SxmStream._streams_by_bitrate`
(stream.py line 19), whose values are the playlist URL or `None`. -/
def dictLookup (m : List (List Char × Option (List Char))) (k : List Char) :
    Option (Option (List Char)) :=
  (m.find? (fun p => p.1 == k)).map (fun p => p.2)

/-- Python `dict.get(key)`: `None` both when the key is absent and when the
stored value is `None`. -/
def pyDictGet (m : List (List Char × Option (List Char))) (k : List Char) :
    Option (List Char) :=
  (dictLookup m k).bind id

/-- The parts of the tune-source response the code reads:
`streams[0]["id"]` and `streams[0]["urls"][0]["url"]`
(stream.py lines 52-60). -/
structure TuneResp where
  streamId : List Char
  url : List Char
deriving DecidableEq

/-- The fields of `SxmStream` (stream.py lines 12-20). -/
structure SxmStream where
  entityType : List Char
  entityId : List Char
  initialized : Bool
  tuneSource : Option TuneResp
  streamsByBitrate : List (List Char × Option (List Char))
deriving DecidableEq

/-- A freshly constructed `SxmStream` (stream.py lines 12-20). -/
def newStream (et ei : List Char) : SxmStream :=
  { entityType := et
    entityId := ei
    initialized := false
    tuneSource := none
    streamsByBitrate := [] }

/-- `url.rsplit("/", 1)[0]` (stream.py line 65): the manifest URL with its
last path segment removed; the URL itself if it contains no slash. -/
def rsplitHead (s : List Char) : List Char :=
  let parts := s.splitOn '/'
  if parts.length ≤ 1 then s else List.intercalate ['/'] parts.dropLast

/-- `SxmStream.base_url` (stream.py lines 62-65). -/
def base_url (ts : TuneResp) : List Char :=
  rsplitHead ts.url

/-- Does `pat` occur as a contiguous substring of `s`?  This is the scan
`re.search` performs at successive start positions. -/
def containsSeq (pat : List Char) : List Char → Bool
  | [] => pat.isEmpty
  | c :: rest => pat.isPrefixOf (c :: rest) || containsSeq pat rest

/-- The literal characters the manifest-scanning regex
`^.*_<bitrate>_full_v3\.m3u8.*$` requires in a line (stream.py line 42). -/
def bitratePattern (b : List Char) : List Char :=
  '_' :: (b ++ ('_' :: "full_v3.m3u8".toList))

/-- `re.search(pattern, text, re.MULTILINE)` for the pattern
`^.*_<bitrate>_full_v3\.m3u8.*$` (stream.py lines 42-43): since `^`/`$`
anchor at line boundaries and `.` does not cross newlines, the match is the
first newline-delimited line of the text that contains the literal pattern
characters, and `match.group(0)` is that whole line. -/
def reSearchLine (b : List Char) (text : List Char) : Option (List Char) :=
  (text.splitOn '\n').find? (fun line => containsSeq (bitratePattern b) line)

/-- The characters Python's `str.strip()` removes (ASCII whitespace). -/
def pySpace (c : Char) : Bool :=
  c = ' ' || c = '\t' || c = '\n' || c = '\r' || c = '\x0b' || c = '\x0c'

/-- Python `str.strip()`: remove leading and trailing whitespace. -/
def pyStrip (s : List Char) : List Char :=
  ((s.dropWhile pySpace).reverse.dropWhile pySpace).reverse

/-- The fixed bitrate probe order of `SxmStream` (stream.py line 41,
const.py lines 3-6): 256k, 96k, 64k, 32k. -/
def bitrateProbeOrder : List (List Char) :=
  ["256k".toList, "96k".toList, "64k".toList, "32k".toList]

/-- `SxmStream initialize` (stream.py lines 22-50) after its two transport
requests succeeded with the given tune-source descriptor and manifest text:
stores the descriptor, then for each bitrate in the probe order stores
`base_url + "/" + match.group(0).strip()` for the first matching manifest
line (or `None` when no line matches), and finally sets `initialized`. -/
def initializeStream (ts : TuneResp) (manifest : List Char) (st : SxmStream) :
    SxmStream :=
  { st with
    tuneSource := some ts
    streamsByBitrate := bitrateProbeOrder.map (fun b =>
      (b, (reSearchLine b manifest).map (fun line =>
            base_url ts ++ ('/' :: pyStrip line))))
    initialized := true }

/-- `SxmStream.get_playlist` (stream.py lines 67-69): the stored URL for
the bitrate — `None` when absent or null — is passed directly to
`self._client.request`.  A `None` URL is rejected by the transport with a
`TypeError` (yarl refuses a non-string URL, and `TypeError` is not in the
except clause of client.py line 112); no `NotAvailableError` exists in the
package. -/
def get_playlist (st : SxmStream) (bitrate : List Char)
    (fetch : List Char → List Char) : Except PyError (List Char) :=
  match pyDictGet st.streamsByBitrate bitrate with
  | none => Except.error PyError.typeError
  | some url => Except.ok (fetch url)

/-- Python list indexing `parts[-2]`: the second-to-last element, an
`IndexError` when the list has fewer than two elements. -/
def pyIndexNeg2 (parts : List (List Char)) : Except PyError (List Char) :=
  if h : 2 ≤ parts.length then
    Except.ok (parts.get ⟨parts.length - 2, by omega⟩)
  else Except.error PyError.indexError

/-- `SxmStream.get_segment` (stream.py lines 71-75): takes the stored URL
for the bitrate (`None.split` is an `AttributeError` when absent/null),
derives the bitrate directory as the second-to-last slash-delimited
component, and fetches `base_url/bitrate_dir/segment_file` (`base_url`
reads the tune source, a `TypeError` on an uninitialized handle). -/
def get_segment (st : SxmStream) (segmentFile bitrate : List Char)
    (fetch : List Char → List Char) : Except PyError (List Char) :=
  match pyDictGet st.streamsByBitrate bitrate with
  | none => Except.error PyError.attributeError
  | some url =>
    match pyIndexNeg2 (url.splitOn '/') with
    | Except.error e => Except.error e
    | Except.ok d =>
      match st.tuneSource with
      | none => Except.error PyError.typeError
      | some ts =>
        Except.ok (fetch (base_url ts ++ ('/' :: (d ++ ('/' :: segmentFile)))))

/-- The all-zero UUID constant of `SxmStream.get_key` (stream.py line 79). -/
def zeroUUID : List Char := "00000000-0000-0000-0000-000000000000".toList

/-- The entity type for which `get_key` uses the all-zero UUID. -/
def channelLinear : List Char := "channel-linear".toList

/-- The key id `SxmStream.get_key` selects (stream.py line 79): the
all-zero UUID when the entity type is "channel-linear", else
`self.stream_id` (= `streams[0]["id"]` of the tune source, stream.py
lines 52-55; a `TypeError` on an uninitialized handle). -/
def get_key_id (st : SxmStream) : Except PyError (List Char) :=
  if st.entityType = channelLinear then Except.ok zeroUUID
  else
    match st.tuneSource with
    | none => Except.error PyError.typeError
    | some ts => Except.ok ts.streamId

/-- The key-fetch URL (stream.py lines 80-84). -/
def keyUrl (kid : List Char) : List Char :=
  "https://api.edge-gateway.siriusxm.com/playback/key/v1/".toList ++ kid

/-- `SxmStream.get_key` (stream.py lines 77-84): fetch the key material by
the selected key id. -/
def get_key (st : SxmStream) (fetch : List Char → List Char) :
    Except PyError (List Char) :=
  match get_key_id st with
  | Except.error e => Except.error e
  | Except.ok kid => Except.ok (fetch (keyUrl kid))

/-- An initialized example stream handle: 256k has a stored URL, the other
bitrates are null — the manifest only advertised a 256k stream. -/
def streamEx : SxmStream :=
  { entityType := "channel-linear".toList
    entityId := "ch1".toList
    initialized := true
    tuneSource := some ⟨"sid-1".toList, "https://cdn.example/p/m.m3u8".toList⟩
    streamsByBitrate :=
      [("256k".toList, some "https://cdn.example/p/a_256k_full_v3.m3u8".toList),
       ("96k".toList, none), ("64k".toList, none), ("32k".toList, none)] }

/-- Counterexample to claim C2: on a handle whose bitrate map holds null
for 96k, `get_playlist` does not fail with `NotAvailableError` (no such
error exists in the package); it passes the null URL to the transport,
which rejects it with a `TypeError`. -/
theorem get_playlist_counterexample :
    get_playlist streamEx ("96k".toList) (fun u => u)
        = Except.error PyError.typeError
    ∧ get_playlist streamEx ("96k".toList) (fun u => u)
        ≠ Except.error PyError.notAvailableError := by
  refine ⟨rfl, ?_⟩
  intro h
  rw [show get_playlist streamEx ("96k".toList) (fun u => u)
      = Except.error PyError.typeError from rfl] at h
  injection h with h1
  exact absurd h1 (by decide)

/-- Claim C2 as amended: `get_playlist` passes the stored URL for the
bitrate directly to the transport.  When the handle's bitrate map has no
URL for that bitrate (absent or null) the request fails with a
transport-level `TypeError` (a null URL), not with a distinct
`NotAvailableError` — no such error kind exists in the package; otherwise
it fetches and returns the playlist document as text. -/
theorem get_playlist_spec (st : SxmStream) (bitrate : List Char)
    (fetch : List Char → List Char) :
    (pyDictGet st.streamsByBitrate bitrate = none →
      get_playlist st bitrate fetch = Except.error PyError.typeError)
    ∧ ∀ url, pyDictGet st.streamsByBitrate bitrate = some url →
        get_playlist st bitrate fetch = Except.ok (fetch url) := by
  constructor
  · intro h; simp [get_playlist, h]
  · intro url h; simp [get_playlist, h]

/-- Concrete instance of amended claim C2's theorem: fetching the stored
256k playlist of the example handle returns the fetched document. -/
theorem get_playlist_spec_witness :
    get_playlist streamEx ("256k".toList) (fun u => u)
      = Except.ok ((fun u => (u : List Char))
          "https://cdn.example/p/a_256k_full_v3.m3u8".toList) :=
  (get_playlist_spec streamEx ("256k".toList) (fun u => u)).2
    "https://cdn.example/p/a_256k_full_v3.m3u8".toList rfl

/-- Claim C6: `get_key` selects the all-zero UUID as key id exactly when
the entity type is "channel-linear" (for any entity id), and the
tune-source descriptor's first stream id otherwise; the key is fetched by
that id (stream.py lines 52-55 and 77-84).  The if-and-only-if on the key
id value additionally needs the descriptor's stream id to differ from the
zero UUID. -/
theorem get_key_spec (st : SxmStream) (ts : TuneResp)
    (fetch : List Char → List Char) (hts : st.tuneSource = some ts) :
    (st.entityType = channelLinear →
      get_key st fetch = Except.ok (fetch (keyUrl zeroUUID)))
    ∧ (st.entityType ≠ channelLinear →
      get_key st fetch = Except.ok (fetch (keyUrl ts.streamId)))
    ∧ (ts.streamId ≠ zeroUUID →
      (get_key_id st = Except.ok zeroUUID ↔ st.entityType = channelLinear)) := by
  refine ⟨?_, ?_, ?_⟩
  · intro h; simp [get_key, get_key_id, h]
  · intro h; simp [get_key, get_key_id, h, hts]
  · intro hz
    constructor
    · intro h
      by_cases he : st.entityType = channelLinear
      · exact he
      · exfalso
        simp [get_key_id, he, hts] at h
        exact hz h
    · intro he; simp [get_key_id, he]

/-- Concrete instance of claim C6's theorem: the example handle has entity
type "channel-linear", so the key is fetched by the all-zero UUID. -/
theorem get_key_spec_witness :
    get_key streamEx (fun u => u)
      = Except.ok ((fun u => (u : List Char)) (keyUrl zeroUUID)) :=
  (get_key_spec streamEx ⟨"sid-1".toList, "https://cdn.example/p/m.m3u8".toList⟩
    (fun u => u) rfl).1 rfl

theorem pyIndexNeg2_append (front : List (List Char)) (d e : List Char) :
    pyIndexNeg2 (front ++ [d, e]) = Except.ok d := by
  have h2 : 2 ≤ (front ++ [d, e]).length := by
    simp [List.length_append]
  rw [pyIndexNeg2, dif_pos h2]
  congr 1
  rw [List.get_eq_getElem,
    List.getElem_append_right (by simp [List.length_append])]
  simp [List.length_append]

/-- Claim C7: for an initialized handle whose bitrate map holds a URL for
the requested bitrate, `get_segment` derives the bitrate directory as
exactly the second-to-last slash-delimited component of that stored URL
(`.split("/")[-2]`, stream.py line 73-74) and fetches
`base_url/bitrate_dir/segment_file` (stream.py line 75). -/
theorem get_segment_spec (st : SxmStream) (ts : TuneResp)
    (segFile bitrate url : List Char) (front : List (List Char))
    (d lastc : List Char) (fetch : List Char → List Char)
    (hts : st.tuneSource = some ts)
    (hurl : pyDictGet st.streamsByBitrate bitrate = some url)
    (hsplit : url.splitOn '/' = front ++ [d, lastc]) :
    get_segment st segFile bitrate fetch
      = Except.ok (fetch (base_url ts ++ ('/' :: (d ++ ('/' :: segFile))))) := by
  simp [get_segment, hurl, hsplit, pyIndexNeg2_append, hts]

/-- Concrete instance of claim C7's theorem: the stored 256k URL of the
example handle splits into five components; the second-to-last is "p". -/
theorem get_segment_spec_witness :
    get_segment streamEx ("s01.aac".toList) ("256k".toList) (fun u => u)
      = Except.ok ((fun u => (u : List Char))
          (base_url ⟨"sid-1".toList, "https://cdn.example/p/m.m3u8".toList⟩
            ++ ('/' :: ("p".toList ++ ('/' :: "s01.aac".toList))))) :=
  get_segment_spec streamEx
    ⟨"sid-1".toList, "https://cdn.example/p/m.m3u8".toList⟩
    ("s01.aac".toList) ("256k".toList)
    "https://cdn.example/p/a_256k_full_v3.m3u8".toList
    ["https:".toList, "".toList, "cdn.example".toList]
    ("p".toList) ("a_256k_full_v3.m3u8".toList) (fun u => u)
    rfl rfl (by decide)

/-- `containsSeq` is exactly occurrence as a contiguous substring. -/
theorem containsSeq_iff (pat s : List Char) :
    containsSeq pat s = true ↔ ∃ x y, s = x ++ (pat ++ y) := by
  induction s with
  | nil =>
    constructor
    · intro h
      cases pat with
      | nil => exact ⟨[], [], rfl⟩
      | cons p ps => simp [containsSeq, List.isEmpty] at h
    · rintro ⟨x, y, h⟩
      rcases List.append_eq_nil.mp h.symm with ⟨hx, hpy⟩
      rcases List.append_eq_nil.mp hpy with ⟨hp, hy⟩
      simp [containsSeq, hp, List.isEmpty]
  | cons c rest ih =>
    rw [containsSeq, Bool.or_eq_true, ih]
    constructor
    · rintro (hpre | ⟨x, y, hxy⟩)
      · rcases List.isPrefixOf_iff_prefix.mp hpre with ⟨t, ht⟩
        exact ⟨[], t, by simp [ht]⟩
      · exact ⟨c :: x, y, by rw [hxy]; rfl⟩
    · rintro ⟨x, y, hxy⟩
      cases x with
      | nil =>
        left
        exact List.isPrefixOf_iff_prefix.mpr ⟨y, by simpa using hxy.symm⟩
      | cons x0 xs =>
        right
        rw [List.cons_append] at hxy
        exact ⟨xs, y, (List.cons.injEq _ _ _ _ ▸ hxy).2⟩

/-- `find?` over a decomposed list: if everything before `l` fails the
predicate and `l` satisfies it, `l` is the first hit. -/
theorem find?_first_of_split (p : List Char → Bool) (pre : List (List Char))
    (l : List Char) (post : List (List Char))
    (hpre : ∀ x ∈ pre, p x = false) (hl : p l = true) :
    (pre ++ l :: post).find? p = some l := by
  induction pre with
  | nil => simp [List.find?_cons_of_pos, hl]
  | cons a as ih =>
    rw [List.cons_append, List.find?_cons_of_neg]
    · exact ih (fun x hx => hpre x (List.mem_cons_of_mem a hx))
    · simp [hpre a (List.mem_cons_self a as)]

/-- Looking up a probe-order bitrate in the dict built by the
initialization loop yields the value computed for that bitrate. -/
theorem dictLookup_probe (f : List Char → Option (List Char)) (b : List Char)
    (hb : b ∈ bitrateProbeOrder) :
    dictLookup (bitrateProbeOrder.map (fun k => (k, f k))) b = some (f b) := by
  simp only [bitrateProbeOrder, List.mem_cons, List.not_mem_nil, or_false] at hb
  rcases hb with rfl | rfl | rfl | rfl
  · rfl
  · rfl
  · rfl
  · rfl

/-- Claim C4 as amended: `initialize` scans the manifest line-by-line per
bitrate in the fixed probe order and maps each bitrate to
`base_url + "/" + strip(matched_line)` — the code applies
`match.group(0).strip()` (stream.py lines 45-46), so leading/trailing
whitespace of the matched line is removed — where the matched line is the
first manifest line containing `_<bitrate>_full_v3.m3u8`; bitrates with no
matching line map to null, and initialization succeeds (initialized
becomes true) regardless of how many bitrates matched, given that the
tune-source and manifest requests succeeded (their responses are this
model's inputs). -/
theorem initializeStream_spec (manifest : List Char) (ts : TuneResp)
    (st : SxmStream) (b : List Char) (hb : b ∈ bitrateProbeOrder) :
    (initializeStream ts manifest st).initialized = true
    ∧ ((∀ l ∈ manifest.splitOn '\n', ∀ x y, l ≠ x ++ (bitratePattern b ++ y)) →
        dictLookup (initializeStream ts manifest st).streamsByBitrate b
          = some none)
    ∧ (∀ pre l post, manifest.splitOn '\n' = pre ++ l :: post →
        (∀ l2 ∈ pre, ∀ x y, l2 ≠ x ++ (bitratePattern b ++ y)) →
        (∃ x y, l = x ++ (bitratePattern b ++ y)) →
        dictLookup (initializeStream ts manifest st).streamsByBitrate b
          = some (some (base_url ts ++ ('/' :: pyStrip l)))) := by
  refine ⟨rfl, ?_, ?_⟩
  · intro hnone
    have hfind : reSearchLine b manifest = none := by
      rw [reSearchLine, List.find?_eq_none]
      intro x hx hpx
      rcases (containsSeq_iff _ _).mp hpx with ⟨u, v, huv⟩
      exact hnone x hx u v huv
    show dictLookup
        (bitrateProbeOrder.map (fun k =>
          (k, (reSearchLine k manifest).map (fun line =>
                base_url ts ++ ('/' :: pyStrip line))))) b
      = some none
    rw [dictLookup_probe _ b hb, hfind]
    rfl
  · intro pre l post hsplit hpre hex
    have hfind : reSearchLine b manifest = some l := by
      rw [reSearchLine, hsplit]
      refine find?_first_of_split _ pre l post ?_ ?_
      · intro x hx
        rcases Bool.eq_false_or_eq_true (containsSeq (bitratePattern b) x) with ht | hf
        · rcases (containsSeq_iff _ _).mp ht with ⟨u, v, huv⟩
          exact absurd huv (hpre x hx u v)
        · exact hf
      · exact (containsSeq_iff _ _).mpr hex
    show dictLookup
        (bitrateProbeOrder.map (fun k =>
          (k, (reSearchLine k manifest).map (fun line =>
                base_url ts ++ ('/' :: pyStrip line))))) b
      = some (some (base_url ts ++ ('/' :: pyStrip l)))
    rw [dictLookup_probe _ b hb, hfind]
    rfl

/-- Tune-source descriptor for the C4 counterexample. -/
def tsC4 : TuneResp := ⟨"sid".toList, "https://h/a/m.m3u8".toList⟩

/-- A manifest whose only line carries leading and trailing whitespace
around the 96k playlist name. -/
def padManifest : List Char := "  pad_96k_full_v3.m3u8 ".toList

/-- Counterexample to claim C4 as stated: on a manifest line with
surrounding whitespace, the stored URL is `base_url + "/" +` the
whitespace-stripped line, not `base_url + "/" + matched_line`: the code
applies `.strip()` to the matched line (stream.py lines 45-46). -/
theorem initializeStream_counterexample :
    dictLookup (initializeStream tsC4 padManifest
        (newStream "channel-linear".toList "c".toList)).streamsByBitrate
      ("96k".toList)
      = some (some ("https://h/a/pad_96k_full_v3.m3u8".toList))
    ∧ dictLookup (initializeStream tsC4 padManifest
        (newStream "channel-linear".toList "c".toList)).streamsByBitrate
      ("96k".toList)
      ≠ some (some (base_url tsC4 ++ ('/' :: "  pad_96k_full_v3.m3u8 ".toList))) := by
  exact ⟨by decide, by decide⟩

/-- Concrete instance of amended claim C4's theorem: the padded manifest
line is matched for 96k and stored stripped. -/
theorem initializeStream_spec_witness :
    dictLookup (initializeStream tsC4 padManifest
        (newStream "channel-linear".toList "c".toList)).streamsByBitrate
      ("96k".toList)
      = some (some (base_url tsC4
          ++ ('/' :: pyStrip "  pad_96k_full_v3.m3u8 ".toList))) :=
  (initializeStream_spec padManifest tsC4
      (newStream "channel-linear".toList "c".toList) ("96k".toList)
      (by decide)).2.2
    [] ("  pad_96k_full_v3.m3u8 ".toList) [] (by decide)
    (fun l2 hl2 => absurd hl2 (List.not_mem_nil l2))
    ⟨"  pad".toList, " ".toList, by decide⟩


/-!
The proxy playlist rewrite (proxy.py lines 33-47) and the cooperative
concurrency model of stream resolution (client.py lines 256-266).
-/


def extKeyMarker : List Char := "#EXT-X-KEY:METHOD=AES-128,URI=\"".toList

def uriScan : List Char → List Char → Option (List Char × List Char)
  | _, [] => none
  | acc, c :: rest =>
    if c = '"' then some (acc.reverse, rest)
    else if c = '\n' then none
    else uriScan (c :: acc) rest

def splitUri : List Char → Option (List Char × List Char)
  | [] => none
  | c :: rest => if c = '\n' then none else uriScan [c] rest

def matchKeyAt (s : List Char) : Option (List Char × List Char) :=
  if extKeyMarker.isPrefixOf s then splitUri (s.drop extKeyMarker.length)
  else none

theorem uriScan_length {acc s : List Char} {p : List Char × List Char}
    (h : uriScan acc s = some p) : p.2.length < s.length := by
  induction s generalizing acc with
  | nil => simp [uriScan] at h
  | cons c rest ih =>
    rw [uriScan] at h
    by_cases hq : c = '"'
    · rw [if_pos hq] at h
      cases h
      simp
    · rw [if_neg hq] at h
      by_cases hn : c = '\n'
      · rw [if_pos hn] at h; cases h
      · rw [if_neg hn] at h
        exact Nat.lt_trans (ih h) (by simp)

theorem splitUri_length {s : List Char} {p : List Char × List Char}
    (h : splitUri s = some p) : p.2.length < s.length := by
  cases s with
  | nil => simp [splitUri] at h
  | cons c rest =>
    rw [splitUri] at h
    by_cases hn : c = '\n'
    · rw [if_pos hn] at h; cases h
    · rw [if_neg hn] at h
      exact Nat.lt_trans (uriScan_length h) (by simp)

theorem matchKeyAt_length {s : List Char} {p : List Char × List Char}
    (h : matchKeyAt s = some p) : p.2.length < s.length := by
  rw [matchKeyAt] at h
  by_cases hp : extKeyMarker.isPrefixOf s
  · rw [if_pos hp] at h
    have h2 := splitUri_length h
    have h3 : (s.drop extKeyMarker.length).length ≤ s.length := by
      simp [List.length_drop]
    omega
  · rw [if_neg hp] at h; cases h

def pySubKey (repl : List Char) (s : List Char) : List Char :=
  match hm : matchKeyAt s with
  | some p => repl ++ pySubKey repl p.2
  | none =>
    match s with
    | [] => []
    | c :: tail => c :: pySubKey repl tail
termination_by s.length
decreasing_by
  · exact matchKeyAt_length hm
  · simp

theorem pySubKey_nil (repl : List Char) : pySubKey repl [] = [] := by
  rw [pySubKey]
  split
  · rename_i p hm
    rw [show matchKeyAt [] = none from rfl] at hm
    cases hm
  · rfl

theorem pySubKey_match (repl : List Char) {s uri rest : List Char}
    (h : matchKeyAt s = some (uri, rest)) :
    pySubKey repl s = repl ++ pySubKey repl rest := by
  rw [pySubKey]
  split
  · rename_i p hm
    rw [h] at hm
    cases hm
    rfl
  · rename_i hm
    rw [h] at hm
    cases hm

theorem pySubKey_cons_nomatch (repl : List Char) {c : Char} {tail : List Char}
    (h : matchKeyAt (c :: tail) = none) :
    pySubKey repl (c :: tail) = c :: pySubKey repl tail := by
  rw [pySubKey]
  split
  · rename_i p hm
    rw [h] at hm
    cases hm
  · rfl

theorem uriScan_eq (acc t rest : List Char) (hq : '"' ∉ t) (hn : '\n' ∉ t) :
    uriScan acc (t ++ '"' :: rest) = some (acc.reverse ++ t, rest) := by
  induction t generalizing acc with
  | nil => simp [uriScan]
  | cons c tl ih =>
    have hcq : c ≠ '"' := fun h => hq (h ▸ List.mem_cons_self c tl)
    have hcn : c ≠ '\n' := fun h => hn (h ▸ List.mem_cons_self c tl)
    rw [List.cons_append, uriScan, if_neg hcq, if_neg hcn,
      ih (c :: acc) (fun h => hq (List.mem_cons_of_mem c h))
        (fun h => hn (List.mem_cons_of_mem c h))]
    simp

theorem splitUri_eq (uri rest : List Char) (hne : uri ≠ [])
    (hq : '"' ∉ uri) (hn : '\n' ∉ uri) :
    splitUri (uri ++ '"' :: rest) = some (uri, rest) := by
  cases uri with
  | nil => exact absurd rfl hne
  | cons u0 us =>
    have h0n : u0 ≠ '\n' := fun h => hn (h ▸ List.mem_cons_self u0 us)
    rw [List.cons_append, splitUri, if_neg h0n,
      uriScan_eq [u0] us rest (fun h => hq (List.mem_cons_of_mem u0 h))
        (fun h => hn (List.mem_cons_of_mem u0 h))]
    simp

theorem matchKeyAt_keyline (uri rest : List Char) (hne : uri ≠ [])
    (hq : '"' ∉ uri) (hn : '\n' ∉ uri) :
    matchKeyAt (extKeyMarker ++ (uri ++ '"' :: rest)) = some (uri, rest) := by
  rw [matchKeyAt,
    if_pos (List.isPrefixOf_iff_prefix.mpr ⟨uri ++ '"' :: rest, rfl⟩),
    List.drop_left, splitUri_eq uri rest hne hq hn]

theorem pySubKey_append_of_nomatch (repl pre rest : List Char)
    (h : ∀ i < pre.length, matchKeyAt ((pre ++ rest).drop i) = none) :
    pySubKey repl (pre ++ rest) = pre ++ pySubKey repl rest := by
  induction pre with
  | nil => simp
  | cons c pr ih =>
    have h0 : matchKeyAt (c :: (pr ++ rest)) = none := by
      have := h 0 (by simp)
      simpa using this
    have hpre : ∀ i < pr.length, matchKeyAt ((pr ++ rest).drop i) = none := by
      intro i hi
      have := h (i + 1) (by simp; omega)
      simpa using this
    rw [List.cons_append, pySubKey_cons_nomatch _ h0, ih hpre]
    simp

theorem pySubKey_eq_self_of_nomatch (repl s : List Char)
    (h : ∀ i < s.length, matchKeyAt (s.drop i) = none) :
    pySubKey repl s = s := by
  induction s with
  | nil => exact pySubKey_nil repl
  | cons c tail ih =>
    have h0 : matchKeyAt (c :: tail) = none := by
      have := h 0 (by simp)
      simpa using this
    have htail : ∀ i < tail.length, matchKeyAt (tail.drop i) = none := by
      intro i hi
      have := h (i + 1) (by simp; omega)
      simpa using this
    rw [pySubKey_cons_nomatch _ h0, ih htail]

/-- The replacement string of the rewrite (proxy.py lines 44-45):
`#EXT-X-KEY:METHOD=AES-128,URI="/stream/{entity_type}/{entity_id}/key"`. -/
def localKeyLine (et ei : List Char) : List Char :=
  "#EXT-X-KEY:METHOD=AES-128,URI=\"/stream/".toList
    ++ (et ++ ('/' :: (ei ++ "/key\"".toList)))

/-- A full match region of the rewrite regex
`#EXT-X-KEY:METHOD=AES-128,URI="(.+?)"` (proxy.py line 43): the literal
marker, a non-empty URI without quote or newline, and the closing quote. -/
def keyLine (uri : List Char) : List Char := extKeyMarker ++ (uri ++ ['\"'])

/-- The playlist rewrite of the proxy's playlist route (proxy.py lines
42-46): `re.sub` replaces every non-overlapping occurrence of the key
pattern with the local key line. -/
def rewritePlaylist (et ei playlist : List Char) : List Char :=
  pySubKey (localKeyLine et ei) playlist

/-- Claim C5: the playlist rewrite replaces only the quoted URI value
inside each `#EXT-X-KEY:METHOD=AES-128,URI="<uri>"` region — the region
becomes `#EXT-X-KEY:METHOD=AES-128,URI="/stream/{entityType}/{entityId}/key"`,
each region rewritten independently — and leaves every other byte of the
playlist unchanged; in particular a playlist in which the key pattern
matches nowhere is returned byte-identical.  The no-backslash hypotheses
on the entity components mark the boundary of the embedding: `re.sub`
would interpret backslash escapes inside the replacement string
(proxy.py lines 44-46), which the model does not reproduce. -/
theorem rewritePlaylist_spec (et ei : List Char)
    (hb1 : '\\' ∉ et) (hb2 : '\\' ∉ ei) :
    (∀ s : List Char, (∀ i < s.length, matchKeyAt (s.drop i) = none) →
      rewritePlaylist et ei s = s)
    ∧ (∀ pre uri1 mid uri2 post : List Char,
        uri1 ≠ [] → '"' ∉ uri1 → '\n' ∉ uri1 →
        uri2 ≠ [] → '"' ∉ uri2 → '\n' ∉ uri2 →
        (∀ i < pre.length,
          matchKeyAt
            ((pre ++ (keyLine uri1 ++ (mid ++ (keyLine uri2 ++ post)))).drop i)
            = none) →
        (∀ i < mid.length,
          matchKeyAt ((mid ++ (keyLine uri2 ++ post)).drop i) = none) →
        (∀ i < post.length, matchKeyAt (post.drop i) = none) →
        rewritePlaylist et ei
            (pre ++ (keyLine uri1 ++ (mid ++ (keyLine uri2 ++ post))))
          = pre ++ (localKeyLine et ei
              ++ (mid ++ (localKeyLine et ei ++ post)))) := by
  constructor
  · intro s hs
    exact pySubKey_eq_self_of_nomatch _ s hs
  · intro pre uri1 mid uri2 post h1 h2 h3 h4 h5 h6 hpre hmid hpost
    have key1 : keyLine uri1 ++ (mid ++ (keyLine uri2 ++ post))
        = extKeyMarker ++ (uri1 ++ '"' :: (mid ++ (keyLine uri2 ++ post))) := by
      simp [keyLine, List.append_assoc]
    have key2 : keyLine uri2 ++ post = extKeyMarker ++ (uri2 ++ '"' :: post) := by
      simp [keyLine, List.append_assoc]
    rw [rewritePlaylist, pySubKey_append_of_nomatch _ pre _ hpre, key1,
      pySubKey_match _ (matchKeyAt_keyline uri1 _ h1 h2 h3),
      pySubKey_append_of_nomatch _ mid _ hmid, key2,
      pySubKey_match _ (matchKeyAt_keyline uri2 _ h4 h5 h6),
      pySubKey_eq_self_of_nomatch _ post hpost]

/-- Concrete instance of claim C5's theorem: a playlist with two key lines
and ordinary HLS content around them; both URIs are replaced by the local
key path and all other bytes survive unchanged. -/
theorem rewritePlaylist_spec_witness :
    rewritePlaylist ("channel-linear".toList) ("c1".toList)
        ("#EXTM3U\n".toList
          ++ (keyLine "https://k.example/K1".toList
            ++ ("\n#EXTINF:10,\nseg1.aac\n".toList
              ++ (keyLine "K2".toList ++ "\nseg2.aac\n".toList))))
      = "#EXTM3U\n".toList
          ++ (localKeyLine ("channel-linear".toList) ("c1".toList)
            ++ ("\n#EXTINF:10,\nseg1.aac\n".toList
              ++ (localKeyLine ("channel-linear".toList) ("c1".toList)
                ++ "\nseg2.aac\n".toList))) :=
  (rewritePlaylist_spec ("channel-linear".toList) ("c1".toList)
      (by decide) (by decide)).2
    ("#EXTM3U\n".toList) ("https://k.example/K1".toList)
    ("\n#EXTINF:10,\nseg1.aac\n".toList) ("K2".toList) ("\nseg2.aac\n".toList)
    (by decide) (by decide) (by decide) (by decide) (by decide) (by decide)
    (by decide) (by decide) (by decide)

/-- Program counter of a task running the proxy's stream resolution: in
Python's cooperative scheduling, code between awaits runs atomically and
the suspension points are the transport awaits of `initialize`. -/
inductive TaskPC where
  | start
  | awaitTune
  | awaitManifest
  | done
deriving DecidableEq

/-- The shared state two concurrent resolutions of the same
(entityType, entityId) observe: the registry entry for the pair
(client.py line 51 and 260-263), the handle's initialized flag, and
counters of the upstream tune-source and manifest requests sent. -/
structure ProxySt where
  handleExists : Bool
  handleInitialized : Bool
  tuneRequests : Nat
  manifestRequests : Nat
deriving DecidableEq

/-- One cooperative step of a task resolving a stream
(`SxmClient.get_stream`, client.py lines 256-266, and
`SxmStream initialize`, stream.py lines 22-50).  From `start`:
get_stream creates the handle if absent (synchronous check-then-create,
lines 260-262); if the handle is already initialized the task completes
with it, otherwise it enters the initialization, which sends the
tune-source request (stream.py lines 24-34) and suspends on its await.
From `awaitTune`: the response is stored and the manifest request is sent
(stream.py lines 35-40), suspending again.  From `awaitManifest`: the
bitrate map is filled and `initialized` is set (stream.py lines 41-50),
completing the task. -/
def stepGetStream : TaskPC → ProxySt → TaskPC × ProxySt
  | TaskPC.start, g =>
    let g2 := { g with handleExists := true }
    if g2.handleInitialized then (TaskPC.done, g2)
    else (TaskPC.awaitTune, { g2 with tuneRequests := g2.tuneRequests + 1 })
  | TaskPC.awaitTune, g =>
    (TaskPC.awaitManifest, { g with manifestRequests := g.manifestRequests + 1 })
  | TaskPC.awaitManifest, g =>
    (TaskPC.done, { g with handleInitialized := true })
  | TaskPC.done, g => (TaskPC.done, g)

/-- Two tasks resolving the same entity pair over shared state. -/
structure TwoTasks where
  pcA : TaskPC
  pcB : TaskPC
  shared : ProxySt
deriving DecidableEq

/-- Run one step of task A (`true`) or task B (`false`). -/
def schedStep (t : TwoTasks) (runA : Bool) : TwoTasks :=
  if runA then
    { t with pcA := (stepGetStream t.pcA t.shared).1,
             shared := (stepGetStream t.pcA t.shared).2 }
  else
    { t with pcB := (stepGetStream t.pcB t.shared).1,
             shared := (stepGetStream t.pcB t.shared).2 }

/-- Run a schedule (a list of which task runs at each step). -/
def runSched (t : TwoTasks) (sched : List Bool) : TwoTasks :=
  sched.foldl schedStep t

/-- Both tasks at the start, nothing resolved yet, no upstream requests. -/
def initialTwoTasks : TwoTasks :=
  { pcA := TaskPC.start
    pcB := TaskPC.start
    shared := { handleExists := false
                handleInitialized := false
                tuneRequests := 0
                manifestRequests := 0 } }

/-- Claim C9 fails on the code: two concurrent resolutions of the same
(entityType, entityId) that interleave before either completes
initialization send TWO upstream tune-source requests, not one — the
alternating schedule lets task B find the handle uninitialized after task
A has already suspended inside `initialize` awaiting the tune-source
response, so B enters `initialize` too (there is no per-handle guard in
client.py lines 256-266).  Both callers do end with the fully-initialized
handle. -/
theorem get_stream_concurrent_double_tune :
    runSched initialTwoTasks [true, false, true, false, true, false]
      = { pcA := TaskPC.done
          pcB := TaskPC.done
          shared := { handleExists := true
                      handleInitialized := true
                      tuneRequests := 2
                      manifestRequests := 2 } }
    ∧ (runSched initialTwoTasks
        [true, false, true, false, true, false]).shared.tuneRequests ≠ 1 := by
  exact ⟨rfl, by decide⟩

end Aiosxm
